import Mathlib

/-!
# Verification of the contigo voice-engine backend

Shallow embedding of the parts of the `apps/voice-engine` Python service that
the specification's claims are about, together with theorems settling each
claim.  Every definition is translated from the corresponding Python source
file (noted above each definition); rationals stand in for Python floats
(exact on the reachable inputs, see the comments), `Option`/`Except` stand in
for `None`/raised exceptions, and lists of rows stand in for database tables.
-/

set_option maxRecDepth 10000

namespace Contigo

/-! ## Difficulty inference (services/db_service.py) -/

/-- Note kinds, from `models/db_models.py` (`NoteType`). -/
inductive NoteType where
  | GRAMMAR
  | VOCAB
  | VOCABULARY
  | PRONUNCIATION
  | FLUENCY
  | TOPIC_MENTION
  | CLUSTER
deriving DecidableEq, Repr

/-- One `learning_notes` row, restricted to the fields
`determine_starting_difficulty` reads.  `priority` is optional because the
code guards `n.priority is not None`. -/
structure LearningNote where
  note_type : NoteType
  priority : Option Int
deriving DecidableEq, Repr

/-- `config/settings.py` default `SEVERE_PRIORITY_CUTOFF = 2`. -/
def SEVERE_PRIORITY_CUTOFF : Int := 2

/-- `config/settings.py` default `MIN_NOTES_FOR_DIFFICULTY_ESCALATION = 35`. -/
def MIN_NOTES_FOR_DIFFICULTY_ESCALATION : Nat := 35

/-- `config/settings.py` default `BEGINNER_MAX_ERROR_RATE = 0.28`.  Modelled
as the rational 28/100; for windows of at most 50 notes the Python float
comparison agrees with the rational one (the closest fraction with
denominator ≤ 50 other than 14/50 is farther from 0.28 than a double ULP). -/
def BEGINNER_MAX_ERROR_RATE : ℚ := 28 / 100

/-- `config/settings.py` default `ADVANCED_PROMOTION_ERROR_RATE = 0.08`. -/
def ADVANCED_PROMOTION_ERROR_RATE : ℚ := 8 / 100

/-- `config/settings.py` default `MIN_FLUENCY_NOTES_FOR_PROMOTION = 8`. -/
def MIN_FLUENCY_NOTES_FOR_PROMOTION : Nat := 8

/-- The `severe_notes` list comprehension of `determine_starting_difficulty`:
notes whose priority is present and `<= SEVERE_PRIORITY_CUTOFF`. -/
def severeNotes (notes : List LearningNote) : List LearningNote :=
  notes.filter fun n =>
    match n.priority with
    | some p => decide (p ≤ SEVERE_PRIORITY_CUTOFF)
    | none => false

/-- The `fluency_notes` list comprehension: notes with `note_type == FLUENCY`. -/
def fluencyNotes (notes : List LearningNote) : List LearningNote :=
  notes.filter fun n => n.note_type = NoteType.FLUENCY

/-- `severe_rate = len(severe_notes) / note_count` (0 for an empty window,
matching the code's `if note_count else 0.0`). -/
def severeRate (notes : List LearningNote) : ℚ :=
  ((severeNotes notes).length : ℚ) / (notes.length : ℚ)

/-- `determine_starting_difficulty` from `services/db_service.py` (lines
115-186), applied to the window of the user's most recent (at most 50)
learning notes, newest first. -/
def determine_starting_difficulty (recent_notes : List LearningNote) : String :=
  if recent_notes.isEmpty then "beginner"
  else
    let note_count := recent_notes.length
    let severe_rate : ℚ := ((severeNotes recent_notes).length : ℚ) / (note_count : ℚ)
    if note_count < MIN_NOTES_FOR_DIFFICULTY_ESCALATION then "beginner"
    else if BEGINNER_MAX_ERROR_RATE ≤ severe_rate then "beginner"
    else if MIN_FLUENCY_NOTES_FOR_PROMOTION ≤ (fluencyNotes recent_notes).length ∧
        severe_rate ≤ ADVANCED_PROMOTION_ERROR_RATE then "advanced"
    else "intermediate"

/-! ## Python string helpers

The tutor/translation code below works on Python `str` values via `.strip()`,
`.lower()`, `.split(":", 1)` and `.title()`.  They are modelled character-wise
so that the kernel can evaluate them on concrete inputs; all strings involved
are ASCII, for which these agree with Python. -/

/-- Python `str.strip()`: drop leading and trailing whitespace. -/
def pyStrip (s : String) : String :=
  String.mk (((s.data.dropWhile Char.isWhitespace).reverse.dropWhile
    Char.isWhitespace).reverse)

/-- Python `str.lower()` (ASCII). -/
def pyLower (s : String) : String :=
  String.mk (s.data.map Char.toLower)

/-- Python `str.title()` (ASCII): upper-case every letter that does not follow
a letter, lower-case every other letter. -/
def pythonTitleAux : List Char → Bool → List Char
  | [], _ => []
  | c :: cs, prevAlpha =>
    if c.isAlpha then
      (if prevAlpha then c.toLower else c.toUpper) :: pythonTitleAux cs true
    else c :: pythonTitleAux cs false

/-- Python `str.title()` (ASCII). -/
def pythonTitle (s : String) : String :=
  String.mk (pythonTitleAux s.data false)

/-- Helper for Python `item.split(":", 1)`: split at the first colon, `none`
when no colon occurs (the `ValueError` branch). -/
def splitFirstColonAux : List Char → Option (List Char × List Char)
  | [] => none
  | c :: rest =>
    if c = ':' then some ([], rest)
    else
      match splitFirstColonAux rest with
      | none => none
      | some (pre, post) => some (c :: pre, post)

/-- Python `item.split(":", 1)` as the pair (part before, part after). -/
def splitFirstColon (s : String) : Option (String × String) :=
  (splitFirstColonAux s.data).map fun p => (String.mk p.1, String.mk p.2)

/-! ## Adaptive tutor brain (services/tutor_service.py) -/

/-- One learner/tutor exchange (`TurnExchange` dict in the source). -/
structure TurnExchange where
  user_text : String
  agent_text : String
deriving DecidableEq, Repr

/-- `CLUSTER_SIZE = max(2, settings.TURN_ANALYSIS_CLUSTER_SIZE)` with the
default `TURN_ANALYSIS_CLUSTER_SIZE = 4`. -/
def CLUSTER_SIZE : Nat := 4

/-- Redis `LRANGE key (-n) (-1)`: the last `n` elements (the whole list when
it is shorter). -/
def lastN (n : Nat) (l : List α) : List α :=
  l.drop (l.length - n)

/-- Loop body of `_parse_transcript_from_redis` (tutor_service.py 205-237):
`temp` holds a learner line not yet matched with a tutor line.  A learner line
with a pending learner line emits an incomplete exchange; a tutor line with a
pending learner line emits a complete exchange; an orphan tutor line is
dropped; a line with no colon or an unknown role is skipped; a pending learner
line at the end is flushed as an incomplete exchange. -/
def parseTranscriptAux : List String → Option String → List TurnExchange
  | [], temp =>
    match temp with
    | some u => [⟨u, ""⟩]
    | none => []
  | item :: rest, temp =>
    match splitFirstColon item with
    | none => parseTranscriptAux rest temp
    | some (role, rawText) =>
      let text := pyStrip rawText
      if role = "Learner" then
        match temp with
        | some u => ⟨u, ""⟩ :: parseTranscriptAux rest (some text)
        | none => parseTranscriptAux rest (some text)
      else if role = "Tutor" then
        match temp with
        | some u => ⟨u, text⟩ :: parseTranscriptAux rest none
        | none => parseTranscriptAux rest none
      else parseTranscriptAux rest temp

/-- `_parse_transcript_from_redis` from tutor_service.py. -/
def parse_transcript_from_redis (history : List String) : List TurnExchange :=
  parseTranscriptAux history none

/-- The per-conversation Redis state `register_agent_turn` mutates: the
`transcript:<id>` line list and the `turn_count:<id>` counter. -/
structure TutorRedisState where
  transcript : List String
  turn_count : Nat
deriving DecidableEq, Repr

/-- `register_agent_turn` from tutor_service.py (lines 255-307), with the
Redis client present.  Returns the updated Redis state together with the
cluster handed to `_analyze_cluster`, or `none` when no analysis is
triggered this turn. -/
def register_agent_turn (st : TutorRedisState) (agent_text : String) :
    TutorRedisState × Option (List TurnExchange) :=
  let text := pyStrip agent_text
  if text = "" then (st, none)
  else
    let transcript := st.transcript ++ ["Tutor: " ++ text]
    let turn_count := st.turn_count + 1
    let st2 : TutorRedisState := ⟨transcript, turn_count⟩
    if turn_count % CLUSTER_SIZE ≠ 0 then (st2, none)
    else
      let history_list := lastN (CLUSTER_SIZE * 2) transcript
      if history_list = [] then (st2, none)
      else
        let cluster_slice := parse_transcript_from_redis history_list
        if cluster_slice.length < CLUSTER_SIZE then (st2, none)
        else (st2, some (lastN CLUSTER_SIZE cluster_slice))

/-- An exchange is complete when a tutor line was matched to the learner line
(the spec's "complete learner/tutor exchanges"). -/
def completeExchanges (l : List TurnExchange) : List TurnExchange :=
  l.filter fun e => e.agent_text ≠ ""

/-! ## Weekly article rotation (services/article_service.py) -/

/-- A `weekly_articles` row, restricted to the fields the single-active
invariant is about. -/
structure WeeklyArticle where
  id : Nat
  is_active : Bool
  created_at : Nat
deriving DecidableEq, Repr

/-- The deactivation pass of `import_article` (article_service.py 89-97):
every row with `is_active` set is updated to `is_active = False`. -/
def deactivate_active (db : List WeeklyArticle) : List WeeklyArticle :=
  db.map fun a => if a.is_active then { a with is_active := false } else a

/-- `import_article` (article_service.py 70-128), restricted to its database
effect: deactivate all active rows, then insert the new row with
`is_active = True`. -/
def import_article (db : List WeeklyArticle) (newId now : Nat) : List WeeklyArticle :=
  deactivate_active db ++ [⟨newId, true, now⟩]

/-! ## WAV wrapping (services/elevenlabs_service.py, `_pcm_base64_to_wav_base64`) -/

/-- Python `n.to_bytes(w, "little")` for `n < 256^w`: `w` bytes, least
significant first. -/
def toBytesLE : Nat → Nat → List Nat
  | 0, _ => []
  | w + 1, n => n % 256 :: toBytesLE w (n / 256)

/-- Little-endian decoding of a byte list. -/
def leDecode : List Nat → Nat
  | [] => 0
  | b :: bs => b + 256 * leDecode bs

/-- ASCII bytes of a marker string. -/
def asciiBytes (s : String) : List Nat :=
  s.data.map Char.toNat

/-- The byte-level body of `_pcm_base64_to_wav_base64` (elevenlabs_service.py
39-66): build the 44-byte RIFF/WAVE header and prepend it to the decoded PCM
payload (the base64 decode/encode at the boundaries is not modelled). -/
def pcm_to_wav (pcm_bytes : List Nat) (sample_rate channels sample_width : Nat) :
    List Nat :=
  let data_size := pcm_bytes.length
  let byte_rate := sample_rate * channels * sample_width
  let block_align := channels * sample_width
  asciiBytes "RIFF" ++ toBytesLE 4 (36 + data_size) ++
    asciiBytes "WAVE" ++ asciiBytes "fmt " ++
    toBytesLE 4 16 ++ toBytesLE 2 1 ++ toBytesLE 2 channels ++
    toBytesLE 4 sample_rate ++ toBytesLE 4 byte_rate ++
    toBytesLE 2 block_align ++ toBytesLE 2 (sample_width * 8) ++
    asciiBytes "data" ++ toBytesLE 4 data_size ++ pcm_bytes

/-- `_pcm_base64_to_wav_base64` at its default parameters
(`sample_rate=16000, channels=1, sample_width=2`), as used by the audio relay
path. -/
def pcm_to_wav_default (pcm_bytes : List Nat) : List Nat :=
  pcm_to_wav pcm_bytes 16000 1 2

/-! ## Session lifecycle (services/session_service.py) and the voice
WebSocket handler (api/routes/voice.py) -/

/-- A `conversations` row (models/db_models.py).  UUIDs are modelled as
naturals, datetimes as natural-number instants. -/
structure ConversationRow where
  id : Nat
  user_id : Nat
  start_time : Nat
  end_time : Option Nat
  agent_display_name : Option String
  language : Option String
  difficulty : Option String
  adaptive : Bool
  topic : Option String
deriving DecidableEq, Repr

/-- A `users` row, restricted to the fields `create_session` touches. -/
structure UserRow where
  id : Nat
  workos_id : String
  email : String
deriving DecidableEq, Repr

/-- The database state `create_session` reads and writes. -/
structure SessionDb where
  users : List UserRow
  conversations : List ConversationRow
deriving DecidableEq, Repr

/-- The in-memory `VoiceSession` record returned by `create_session`
(domain/models.py), restricted to the fields the claims read. -/
structure VoiceSessionRec where
  conversation_id : Nat
  user_id : Nat
  agent_name : String
  language : String
  status : String
deriving DecidableEq, Repr

/-- Errors raised out of `create_session`'s database commit. -/
inductive CreateSessionError where
  | pkViolation
deriving DecidableEq, Repr

/-- Committing a pending `INSERT` into `conversations`: the relational engine
(and SQLAlchemy's identity map) rejects a row whose primary key `id` already
exists. -/
def insertConversation (db : List ConversationRow) (row : ConversationRow) :
    Except CreateSessionError (List ConversationRow) :=
  if db.any fun c => c.id = row.id then .error .pkViolation
  else .ok (db ++ [row])

/-- `SessionService._ensure_user_exists` (session_service.py 194-212):
create a placeholder user row when the id is unknown. -/
def ensure_user_exists (users : List UserRow) (user_id : Nat) : List UserRow :=
  if users.any fun u => u.id = user_id then users
  else users ++ [⟨user_id, "voice-placeholder-" ++ toString user_id,
    "voice+" ++ toString user_id ++ "@contigo.local"⟩]

/-- `SessionService.create_session` (session_service.py 31-139) for a caller
that supplies a syntactically valid conversation id (`conversation_id`), with
`freshId` standing for `uuid.uuid4()` and `now` for `datetime.utcnow()`.
Returns the updated database and the new `VoiceSession`, or the error the
commit raised. -/
def create_session (db : SessionDb) (user_id : Nat) (agent_name language : String)
    (difficulty : Option String) (adaptive_flag : Option Bool) (topic : Option String)
    (conversation_id : Option Nat) (freshId now : Nat) :
    Except CreateSessionError (SessionDb × VoiceSessionRec) :=
  let conversation_uuid := conversation_id.getD freshId
  let users := ensure_user_exists db.users user_id
  let found := db.conversations.find? fun c => c.id = conversation_uuid
  -- a row owned by a different user is treated as not found
  let db_conversation :=
    match found with
    | some c => if c.user_id ≠ user_id then none else some c
    | none => none
  match db_conversation with
  | some c =>
    let c2 : ConversationRow :=
      { c with
        agent_display_name := some agent_name
        language := some language
        difficulty := match difficulty with | some d => some d | none => c.difficulty
        adaptive := match adaptive_flag with | some a => a | none => c.adaptive
        topic := match topic with | some t => some t | none => c.topic }
    let conversations := db.conversations.map fun x =>
      if x.id = conversation_uuid then c2 else x
    .ok (⟨users, conversations⟩,
      ⟨conversation_uuid, user_id, agent_name, language, "active"⟩)
  | none =>
    let row : ConversationRow :=
      ⟨conversation_uuid, user_id, now, none, some agent_name, some language,
        difficulty, adaptive_flag.getD false, topic⟩
    match insertConversation db.conversations row with
    | .error e => .error e
    | .ok conversations =>
      .ok (⟨users, conversations⟩,
        ⟨conversation_uuid, user_id, agent_name, language, "active"⟩)

/-- Frame types sent to the learner's WebSocket (§6.3 wire protocol). -/
inductive FrameKind where
  | session_created
  | conversation_started
  | audio
  | user_transcript
  | agent_response
  | guidance_nudge
  | session_timeout
  | errorFrame
deriving DecidableEq, Repr

/-- The observable world of an established voice session: the conversation
table, the in-process active-session map (as the list of its conversation
ids), the frames sent to the learner, and whether a summary row was
persisted. -/
structure VoiceWorld where
  conversations : List ConversationRow
  active_sessions : List Nat
  frames : List FrameKind
  summary_saved : Bool
deriving DecidableEq, Repr

/-- `SessionService.end_session` (session_service.py 145-171): pop the
session from the in-process map and, when it was present, stamp the
conversation row's `end_time`. -/
def end_session (w : VoiceWorld) (cid now : Nat) : VoiceWorld :=
  if cid ∈ w.active_sessions then
    { w with
      active_sessions := w.active_sessions.erase cid
      conversations := w.conversations.map fun c =>
        if c.id = cid then { c with end_time := some now } else c }
  else w

/-- How the `asyncio.wait_for(conversation.start(), ...)` call in
`voice_session` resolved. -/
inductive SessionOutcome where
  | timeout
  | learnerEnd
  | disconnect
deriving DecidableEq, Repr

/-- The tail of the `voice_session` WebSocket handler (api/routes/voice.py
763-823) for an established session: on `asyncio.TimeoutError` exactly one
`session_timeout` frame is sent (its `send_json` wrapped in `try/except
pass`); on `WebSocketDisconnect` the session is ended; when `start()` returns
normally (the learner sent `end`) nothing is sent; then the `finally` block
persists a summary whenever `build_local_summary_artifacts()` is non-empty
(`has_artifacts`). -/
def voice_session_tail (w : VoiceWorld) (cid now : Nat) (outcome : SessionOutcome)
    (has_artifacts : Bool) : VoiceWorld :=
  let w1 :=
    match outcome with
    | .timeout => { w with frames := w.frames ++ [FrameKind.session_timeout] }
    | .learnerEnd => w
    | .disconnect => end_session w cid now
  if has_artifacts then { w1 with summary_saved := true } else w1

/-! ## Literal translation (services/cerebras_service.py) -/

/-- `_looks_untranslated` (cerebras_service.py 35-36): the output equals the
input up to surrounding whitespace and case. -/
def looks_untranslated (original translated : String) : Bool :=
  pyLower (pyStrip translated) = pyLower (pyStrip original)

/-- Environment of one `translate_text` call: whether an API key is
configured, the outcome of `_request_translation(strict)` for each strict
flag (`.error` = HTTP failure or any raised exception), and the outcome of
`opus_translation_service.translate` (`none` = it raised or was empty). -/
structure TranslateEnv where
  api_key : Bool
  request : Bool → Except Unit String
  opus : Option String

/-- Observable outcome of one `translate_text` call: the returned string or
raised error, the strict flags of the Cerebras requests actually issued (in
order), and whether the local OPUS model was invoked. -/
structure TranslateRun where
  result : Except Unit String
  requests : List Bool
  opus_called : Bool

/-- `CerebrasService._fallback_translate_local` (cerebras_service.py
274-304): only the exact pair es→en reaches the local model; an empty or
failed local translation yields `none`. -/
def fallback_translate_local (env : TranslateEnv)
    (source_language target_language : String) : Option String :=
  if source_language ≠ "es" ∨ target_language ≠ "en" then none
  else
    match env.opus with
    | some t => if t = "" then none else some t
    | none => none

/-- `CerebrasService.translate_text` (cerebras_service.py 306-384). -/
def translate_text (env : TranslateEnv) (text target_language source_language : String)
    (fail_on_untranslated : Bool) : TranslateRun :=
  let cleaned := pyStrip text
  if cleaned = "" then ⟨.ok "", [], false⟩
  else
    let target_code := pyLower (if target_language = "" then "en" else target_language)
    let source_code := pyLower (if source_language = "" then "es" else source_language)
    -- the try-block around the Cerebras path: `none` means it failed and the
    -- exception was swallowed into `last_error`
    let primary : Option String × List Bool :=
      if env.api_key then
        match env.request false with
        | .error _ => (none, [false])
        | .ok t1 =>
          if looks_untranslated cleaned t1 then
            match env.request true with
            | .error _ => (none, [false, true])
            | .ok t2 =>
              if looks_untranslated cleaned t2 then (none, [false, true])
              else (some t2, [false, true])
          else (some t1, [false])
      else (none, [])
    match primary with
    | (some t, calls) => ⟨.ok t, calls, false⟩
    | (none, calls) =>
      let opus_called := decide (source_code = "es" ∧ target_code = "en")
      let res : Except Unit String :=
        match fallback_translate_local env source_code target_code with
        | some f =>
          if ¬looks_untranslated cleaned f then .ok f
          else if fail_on_untranslated then .error () else .ok cleaned
        | none =>
          if fail_on_untranslated then .error () else .ok cleaned
      ⟨res, calls, opus_called⟩

/-! ## Per-user article analyses (services/article_service.py) -/

/-- A `user_article_analyses` row.  The four JSON text columns are modelled
as the parsed lists (`json.dumps` / `_safe_json_parse` round-trip is the
identity on them). -/
structure AnalysisRow where
  id : Nat
  article_id : Nat
  user_id : Nat
  vocab_items : List String
  grammar_patterns : List String
  cultural_notes : List String
  personalized_tips : List String
  created_at : Nat
deriving DecidableEq, Repr

/-- What `gemini_service.analyze_article_for_user` returned. -/
structure GenAnalysis where
  vocab_items : List String
  grammar_patterns : List String
  cultural_notes : List String
  personalized_tips : List String
deriving DecidableEq, Repr

/-- Database state for the analysis path: articles as (id, title, content)
triples plus the analysis rows. -/
structure ArticleDbState where
  articles : List (Nat × String × String)
  analyses : List AnalysisRow
deriving DecidableEq, Repr

/-- The dict `get_or_create_analysis` returns. -/
structure AnalysisResult where
  id : Nat
  article_id : Nat
  user_id : Nat
  vocab_items : List String
  grammar_patterns : List String
  cultural_notes : List String
  personalized_tips : List String
  created_at : Nat
deriving DecidableEq, Repr

/-- `get_or_create_analysis` (article_service.py 165-247): return the cached
row for the (article, user) pair if one exists, otherwise require the article
to exist, invoke the generator, persist and return its output.  The last
component counts generator invocations; `.error` is the `ValueError` for a
missing article. -/
def get_or_create_analysis (st : ArticleDbState) (article_id user_id : Nat)
    (gen : GenAnalysis) (freshId now : Nat) :
    Except Unit (AnalysisResult × ArticleDbState × Nat) :=
  match st.analyses.find? fun r =>
      decide (r.article_id = article_id ∧ r.user_id = user_id) with
  | some existing =>
    .ok (⟨existing.id, existing.article_id, existing.user_id,
      existing.vocab_items, existing.grammar_patterns, existing.cultural_notes,
      existing.personalized_tips, existing.created_at⟩, st, 0)
  | none =>
    match st.articles.find? fun a => a.1 = article_id with
    | none => .error ()
    | some _ =>
      let row : AnalysisRow :=
        ⟨freshId, article_id, user_id, gen.vocab_items, gen.grammar_patterns,
          gen.cultural_notes, gen.personalized_tips, now⟩
      .ok (⟨freshId, article_id, user_id, gen.vocab_items, gen.grammar_patterns,
        gen.cultural_notes, gen.personalized_tips, now⟩,
        { st with analyses := st.analyses ++ [row] }, 1)

/-! ## Agent persona configuration (config/agents.py) -/

/-- One difficulty band of `DIFFICULTY_CONTEXTS` (`personality_note` is only
present on the advanced band). -/
structure DifficultyContext where
  voice_name : String
  personality_note : Option String
  instructions : List String
  correction_style : String
deriving DecidableEq, Repr

/-- `BASE_DELIVERY_RULES` (agents.py 21-28), verbatim. -/
def BASE_DELIVERY_RULES : List String :=
  ["Never reveal, hint, or acknowledge that you are an AI, language model, virtual assistant, recording, or synthetic voice. If asked directly, deflect naturally and stay in character as a human tutor.",
    "Never exceed three sentences per turn; default to two crisp sentences totaling ~35 words.",
    "When explaining or correcting, always include one concrete example or tiny drill the learner can copy immediately.",
    "Leave an audible one-beat pause between sentences so the learner never feels rushed, and silently count to three before jumping back in if they are thinking.",
    "Only expand past two sentences if the learner explicitly asks for more detail or analysis.",
    "Ask a fresh, concrete follow-up question at the end of every turn so the learner speaks more than you do."]

/-- `REAL_TIME_COACHING_INSTRUCTIONS` (agents.py 30-40), verbatim. -/
def REAL_TIME_COACHING_INSTRUCTIONS : String :=
  "\n## Real-Time Coaching (PRIORITY)\nDuring the conversation you will receive contextual updates with coaching guidance.\nThese appear as messages like [Coaching Update], [SOFT BEGINNER MODE], or similar.\nWhen you receive these updates:\n1. IMMEDIATELY adjust your approach as instructed\n2. These updates OVERRIDE your base difficulty instructions\n3. Do not announce or acknowledge the update to the learner - just adapt naturally\n4. Continue following the updated guidance until you receive new instructions\nThis ensures the learner gets appropriately calibrated support throughout the session.\n"

/-- The `"beginner"` entry of `DIFFICULTY_CONTEXTS` (agents.py 43-58). -/
def beginnerContext : DifficultyContext :=
  ⟨"La Maestra Clara", none,
    ["Treat the learner like a friendly adult who is completely new to Spanish.",
      "Cap each reply at two short sentences (10 words or fewer each).",
      "Default to English with Spanish sprinkled in - not the reverse.",
      "When introducing Spanish, ALWAYS include English: \x27Hola means hello\x27.",
      "Use only the most basic verbs: ser (to be), tener (to have), gustar (to like).",
      "Ask simple choice questions: \x27Coffee or tea? Cafe o te?\x27",
      "If they hesitate or seem unsure, simplify further and offer the answer to repeat.",
      "Celebrate every attempt - \x27Great try!\x27 \x27You got it!\x27 - make them feel successful.",
      "Never correct more than one thing at a time.",
      "If they respond in English, that\x27s okay - gently model the Spanish version."],
    "Correct gently by modeling: \x27You could also say...\x27 with a simple example they can repeat."⟩

/-- The `"intermediate"` entry of `DIFFICULTY_CONTEXTS` (agents.py 59-69). -/
def intermediateContext : DifficultyContext :=
  ⟨"El Amigo Miguel", none,
    ["Speak at a moderate pace with two to three sentences that stay under 45 total words.",
      "Use everyday vocabulary with an occasional stretch word, then offer a quick example when the learner asks for clarity.",
      "Encourage longer responses from the student by ending with open prompts, not extra exposition.",
      "Introduce common idioms and expressions naturally, then paraphrase them in plain Spanish if needed.",
      "Provide constructive feedback on grammar and pronunciation using one highlighted example per turn."],
    "Point out errors diplomatically and offer corrections naturally in conversation"⟩

/-- The `"advanced"` entry of `DIFFICULTY_CONTEXTS` (agents.py 70-82). -/
def advancedContext : DifficultyContext :=
  ⟨"La Chilanga Daniela",
    some "Occasionally uses light, self-deprecating humor or playful observations. Humor should feel like a friend teasing themselves, not mocking the student.",
    ["Speak at a natural, native pace but keep replies to three intentional sentences max.",
      "Use sophisticated vocabulary and varied sentence structures, then ground tricky phrases with a micro-example when asked.",
      "Challenge the student with complex topics and ask for defended opinions instead of monologues.",
      "Use idioms, slang, and cultural references appropriately and paraphrase once if the learner hesitates.",
      "Expect near-native fluency in responses while still surfacing one precise refinement per turn.",
      "Use occasional dry humor naturally, never at the student\x27s expense"],
    "Provide detailed corrections on subtle errors, nuances, and style with warmth and encouragement"⟩

/-- `DIFFICULTY_CONTEXTS` (agents.py 42-83) as an association list in source
file order; the Python dict literal contains each key exactly once. -/
def DIFFICULTY_CONTEXTS : List (String × DifficultyContext) :=
  [("beginner", beginnerContext),
    ("intermediate", intermediateContext),
    ("advanced", advancedContext)]

/-- `SPANISH_AGENT["base_context"]` (agents.py 113-117). -/
def SPANISH_AGENT_base_context : String :=
  "You are a friendly and patient Spanish tutor helping students practice conversation."

/-- `DIFFICULTY_CONTEXTS.get(difficulty, DIFFICULTY_CONTEXTS["intermediate"])`
(agents.py 145). -/
def difficultyContextFor (difficulty : String) : DifficultyContext :=
  (DIFFICULTY_CONTEXTS.lookup difficulty).getD intermediateContext

/-- Bulleted rendering `"\n".join(f"- {x}" for x in items)`. -/
def bulleted (items : List String) : String :=
  String.intercalate "\n" (items.map fun i => "- " ++ i)

/-- The `context_parts` list of `build_agent_context` (agents.py 147-157),
for a given band. -/
def context_parts_core (dc : DifficultyContext) (difficulty : String)
    (custom_instructions : Option String) : List String :=
  [SPANISH_AGENT_base_context,
    REAL_TIME_COACHING_INSTRUCTIONS,
    "\n\n## Core Delivery Principles:\n" ++ bulleted BASE_DELIVERY_RULES,
    "\n\n## Difficulty Level: " ++ pythonTitle difficulty,
    bulleted dc.instructions,
    "\n\n## Correction Style:\n" ++ dc.correction_style] ++
  (match custom_instructions with
    | some c => ["\n\n## Additional Instructions:\n" ++ c]
    | none => [])

/-- `build_agent_context` (agents.py 120-160). -/
def build_agent_context (difficulty : String) (custom_instructions : Option String)
    (use_adaptive : Bool) : String :=
  if !use_adaptive then SPANISH_AGENT_base_context
  else
    String.intercalate "\n"
      (context_parts_core (difficultyContextFor difficulty) difficulty custom_instructions)

/-- `Agent` (domain/models.py). -/
structure Agent where
  agent_id : String
  name : String
  language : String
  context : String
  api_key : Option String
deriving DecidableEq, Repr

/-- `SPANISH_AGENTS` (agents.py 107-111); the three ElevenLabs agent ids come
from settings and are passed in as parameters. -/
def SPANISH_AGENTS (beginner_id intermediate_id advanced_id : String) :
    List (String × String) :=
  [("beginner", beginner_id),
    ("intermediate", intermediate_id),
    ("advanced", advanced_id)]

/-- `get_agent` (agents.py 163-199). -/
def get_agent (beginner_id intermediate_id advanced_id : String)
    (difficulty : String) (custom_instructions : Option String)
    (api_key : Option String) (use_adaptive : Bool) : Agent :=
  let context := build_agent_context difficulty custom_instructions use_adaptive
  let agents := SPANISH_AGENTS beginner_id intermediate_id advanced_id
  let agent_id := (agents.lookup difficulty).getD
    ((agents.lookup "intermediate").getD "")
  let agent_name :=
    if use_adaptive && difficulty ≠ "" then
      "Spanish Tutor (" ++ pythonTitle difficulty ++ ")"
    else "Spanish Tutor"
  ⟨agent_id, agent_name, "es", context, api_key⟩

/-- `get_difficulty_info` (agents.py 201-214): instruction list and correction
style per band. -/
def get_difficulty_info : List (String × (List String × String)) :=
  DIFFICULTY_CONTEXTS.map fun p => (p.1, (p.2.instructions, p.2.correction_style))

/-- Whether `pat` is a prefix of `s` (character lists). -/
def charsLeading : List Char → List Char → Bool
  | [], _ => true
  | _ :: _, [] => false
  | a :: as, b :: bs => a = b && charsLeading as bs

/-- Whether `pat` occurs as a contiguous substring of `s` (character lists). -/
def charsContain : List Char → List Char → Bool
  | pat, [] => charsLeading pat []
  | pat, c :: rest => charsLeading pat (c :: rest) || charsContain pat rest

/-- Whether the string `pat` occurs as a contiguous substring of `s`. -/
def strContains (pat s : String) : Bool :=
  charsContain pat.data s.data

/-! ## Concrete states used to evaluate the code on specific inputs -/

/-- A Redis transcript of seven buffered learner lines (user turns were
registered without intervening tutor turns) with the turn counter at 3, so
the next registered tutor turn is the 4th. -/
def c4state : TutorRedisState :=
  ⟨["Learner: a", "Learner: b", "Learner: c", "Learner: d", "Learner: e",
      "Learner: f", "Learner: g"], 3⟩

/-- A world with one conversation row (id 7, owner 42, `end_time` absent)
whose session is active and has sent no frames yet. -/
def c2world : VoiceWorld :=
  ⟨[⟨7, 42, 0, none, none, some "es", none, false, none⟩], [7], [], false⟩

/-- A database holding user 10 and a conversation row with id 1 owned by
user 10. -/
def c3db : SessionDb :=
  ⟨[⟨10, "workos-10", "a@example.com"⟩],
    [⟨1, 10, 5, none, some "Spanish Tutor", some "es", none, false, none⟩]⟩

/-- An article table with one article (id 1) and no analyses yet. -/
def c8db : ArticleDbState :=
  ⟨[(1, "Titulo", "Cuerpo del articulo")], []⟩

/-- A generator output for the first analysis call. -/
def c8gen : GenAnalysis :=
  ⟨["vocab"], ["grammar"], ["culture"], ["tips"]⟩

/-- The analysis row the first call persists (id 7, created at 9). -/
def c8row : AnalysisRow :=
  ⟨7, 1, 2, ["vocab"], ["grammar"], ["culture"], ["tips"], 9⟩

/-- The result dict of the first analysis call. -/
def c8result : AnalysisResult :=
  ⟨7, 1, 2, ["vocab"], ["grammar"], ["culture"], ["tips"], 9⟩

/-- The database state after the first analysis call. -/
def c8db1 : ArticleDbState :=
  ⟨[(1, "Titulo", "Cuerpo del articulo")], [c8row]⟩

/-- A Cerebras stub that echoes the input on the relaxed attempt and returns
a genuine translation on the strict retry, with no local model available. -/
def c6env : TranslateEnv :=
  ⟨true, fun strict => .ok (if strict then "hello there" else "hola"), none⟩

end Contigo

namespace Contigo

/-- C1: over the window of the user's most recent (at most 50) learning notes,
`determine_starting_difficulty` returns `beginner` exactly when the user has
zero notes, or fewer than 35 notes, or `severe_rate` (the fraction of notes of
priority ≤ 2) is ≥ 0.28; it returns `advanced` exactly when none of those hold
and the window has at least 8 FLUENCY notes with `severe_rate` ≤ 0.08; and
`intermediate` in every remaining case. -/
theorem determine_starting_difficulty_spec (notes : List LearningNote)
    (hwin : notes.length ≤ 50) :
    (determine_starting_difficulty notes = "beginner" ↔
      (notes.length = 0 ∨ notes.length < 35 ∨ (28 : ℚ) / 100 ≤ severeRate notes)) ∧
    (determine_starting_difficulty notes = "advanced" ↔
      (35 ≤ notes.length ∧ severeRate notes < 28 / 100 ∧
        8 ≤ (fluencyNotes notes).length ∧ severeRate notes ≤ 8 / 100)) ∧
    (determine_starting_difficulty notes = "intermediate" ↔
      (35 ≤ notes.length ∧ severeRate notes < 28 / 100 ∧
        ¬(8 ≤ (fluencyNotes notes).length ∧ severeRate notes ≤ 8 / 100))) := by
  clear hwin
  -- `hwin` frames the statement on actual 50-note windows (it also keeps the
  -- rational model of the float comparisons exact); the branch structure
  -- itself does not depend on it.
  have hba : ("beginner" : String) ≠ "advanced" := by decide
  have hbi : ("beginner" : String) ≠ "intermediate" := by decide
  have hab : ("advanced" : String) ≠ "beginner" := by decide
  have hai : ("advanced" : String) ≠ "intermediate" := by decide
  have hib : ("intermediate" : String) ≠ "beginner" := by decide
  have hia : ("intermediate" : String) ≠ "advanced" := by decide
  have heq : determine_starting_difficulty notes =
      if notes.length = 0 then "beginner"
      else if notes.length < 35 then "beginner"
      else if (28 : ℚ) / 100 ≤ severeRate notes then "beginner"
      else if 8 ≤ (fluencyNotes notes).length ∧ severeRate notes ≤ 8 / 100 then "advanced"
      else "intermediate" := by
    rw [determine_starting_difficulty]
    by_cases h0 : notes.isEmpty
    · have hlen : notes.length = 0 := by
        rw [List.length_eq_zero]; exact List.isEmpty_iff.mp h0
      simp [h0, hlen]
    · have hlen : ¬notes.length = 0 := by
        rw [List.length_eq_zero]
        intro hnil
        exact h0 (List.isEmpty_iff.mpr hnil)
      simp only [h0, if_false, if_neg hlen]
      rfl
  rw [heq]
  split_ifs with h1 h2 h3 h4
  · refine ⟨by simp [h1], ?_, ?_⟩
    · simp only [hba, false_iff]
      rintro ⟨h35, -⟩; omega
    · simp only [hbi, false_iff]
      rintro ⟨h35, -⟩; omega
  · refine ⟨by simp [h2], ?_, ?_⟩
    · simp only [hba, false_iff]
      rintro ⟨h35, -⟩; omega
    · simp only [hbi, false_iff]
      rintro ⟨h35, -⟩; omega
  · refine ⟨by simp [h3], ?_, ?_⟩
    · simp only [hba, false_iff]
      rintro ⟨-, hlt, -⟩; exact absurd h3 (not_le.mpr hlt)
    · simp only [hbi, false_iff]
      rintro ⟨-, hlt, -⟩; exact absurd h3 (not_le.mpr hlt)
  · refine ⟨?_, ?_, ?_⟩
    · simp only [hab, false_iff]
      rintro (h | h | h)
      · exact h1 h
      · exact h2 h
      · exact h3 h
    · simp only [true_iff]
      exact ⟨by omega, lt_of_not_le h3, h4.1, h4.2⟩
    · simp only [hai, false_iff]
      rintro ⟨-, -, hno⟩; exact hno h4
  · refine ⟨?_, ?_, ?_⟩
    · simp only [hib, false_iff]
      rintro (h | h | h)
      · exact h1 h
      · exact h2 h
      · exact h3 h
    · simp only [hia, false_iff]
      rintro ⟨-, -, h8, hr⟩; exact h4 ⟨h8, hr⟩
    · simp only [true_iff]
      exact ⟨by omega, lt_of_not_le h3, h4⟩

/-- Witness for C1 at a concrete window: 40 notes, none severe, 8 of them
FLUENCY, giving `advanced`. -/
theorem determine_starting_difficulty_spec_witness :
    ((List.replicate 8 (⟨NoteType.FLUENCY, some 3⟩ : LearningNote) ++
        List.replicate 32 (⟨NoteType.GRAMMAR, some 3⟩ : LearningNote)).length ≤ 50) ∧
    determine_starting_difficulty
      (List.replicate 8 (⟨NoteType.FLUENCY, some 3⟩ : LearningNote) ++
        List.replicate 32 (⟨NoteType.GRAMMAR, some 3⟩ : LearningNote)) = "advanced" := by
  set w : List LearningNote :=
    List.replicate 8 (⟨NoteType.FLUENCY, some 3⟩ : LearningNote) ++
      List.replicate 32 (⟨NoteType.GRAMMAR, some 3⟩ : LearningNote) with hw
  have hlen : w.length = 40 := by decide
  have hsev : (severeNotes w).length = 0 := by decide
  have hflu : (fluencyNotes w).length = 8 := by decide
  have hrate : severeRate w = 0 := by
    rw [severeRate, hsev, hlen]; norm_num
  have h := determine_starting_difficulty_spec w (by omega)
  refine ⟨by omega, (h.2.1).mpr ⟨by omega, ?_, by omega, ?_⟩⟩
  · rw [hrate]; norm_num
  · rw [hrate]; norm_num

/-- C2 counterexample: a session that times out with one active conversation
row (id 7, `end_time` absent) and non-empty local artifacts receives exactly
one `session_timeout` frame and its summary is persisted — but the handler's
timeout branch never calls `end_session`, so the conversation row keeps
`end_time = none` and the session stays in the active-session map,
contradicting the claim that the end time is persisted. -/
theorem voice_session_timeout_counterexample :
    (voice_session_tail c2world 7 99 SessionOutcome.timeout true).frames
        = [FrameKind.session_timeout] ∧
    (voice_session_tail c2world 7 99 SessionOutcome.timeout true).summary_saved = true ∧
    (voice_session_tail c2world 7 99 SessionOutcome.timeout true).conversations
        = [⟨7, 42, 0, none, none, some "es", none, false, none⟩] ∧
    (voice_session_tail c2world 7 99 SessionOutcome.timeout true).active_sessions = [7] := by
  refine ⟨rfl, rfl, rfl, rfl⟩

/-- C2 (amended): on reaching the maximum session duration the learner
receives exactly one `session_timeout` frame and teardown proceeds exactly as
when the learner ends the call (summary generation from the local artifacts,
no unhandled error) — but `end_session` is not invoked on this path: the
conversation table and the active-session map are untouched, so the
conversation row's end time is not persisted. -/
theorem voice_session_timeout_spec (w : VoiceWorld) (cid now : Nat)
    (has_artifacts : Bool) :
    voice_session_tail w cid now SessionOutcome.timeout has_artifacts =
      { voice_session_tail w cid now SessionOutcome.learnerEnd has_artifacts with
          frames := w.frames ++ [FrameKind.session_timeout] } ∧
    (voice_session_tail w cid now SessionOutcome.timeout has_artifacts).frames.count
        FrameKind.session_timeout
      = w.frames.count FrameKind.session_timeout + 1 ∧
    (voice_session_tail w cid now SessionOutcome.timeout has_artifacts).conversations
      = w.conversations ∧
    (voice_session_tail w cid now SessionOutcome.timeout has_artifacts).active_sessions
      = w.active_sessions ∧
    (voice_session_tail w cid now SessionOutcome.timeout has_artifacts).summary_saved
      = (has_artifacts || w.summary_saved) := by
  cases has_artifacts <;>
    simp [voice_session_tail, List.count_append]

/-- C4 counterexample: with the transcript buffer holding seven learner lines
and the turn counter at 3, registering a 4th tutor turn does run a cluster
analysis although only one complete learner/tutor exchange (fewer than
`CLUSTER_SIZE`) is recovered from the fetched lines — the skip check counts
incomplete exchanges as well, contradicting the claim. -/
theorem register_agent_turn_counterexample :
    ((register_agent_turn c4state "Gracias").2).isSome = true ∧
    (completeExchanges (parse_transcript_from_redis
      (lastN (CLUSTER_SIZE * 2) (c4state.transcript ++ ["Tutor: Gracias"])))).length = 1 ∧
    1 < CLUSTER_SIZE := by
  refine ⟨by decide, by decide, by decide⟩

/-- C4 (amended): `register_agent_turn` (with the cache reachable and the
default `CLUSTER_SIZE = 4`) hands a cluster to analysis exactly when the
registered tutor text is non-empty after trimming, the incremented turn count
is a multiple of 4, and at least 4 exchange entries — complete or incomplete —
are recovered from the most recent `CLUSTER_SIZE * 2` buffered lines; the
analyzed cluster is then exactly the most recent 4 recovered exchanges. -/
theorem register_agent_turn_spec (st : TutorRedisState) (text : String) :
    (register_agent_turn st text).2 =
      (if pyStrip text ≠ "" ∧ (st.turn_count + 1) % CLUSTER_SIZE = 0 ∧
          CLUSTER_SIZE ≤ (parse_transcript_from_redis (lastN (CLUSTER_SIZE * 2)
            (st.transcript ++ ["Tutor: " ++ pyStrip text]))).length then
        some (lastN CLUSTER_SIZE (parse_transcript_from_redis (lastN (CLUSTER_SIZE * 2)
          (st.transcript ++ ["Tutor: " ++ pyStrip text]))))
      else none) ∧
    (register_agent_turn st text).1 =
      (if pyStrip text = "" then st
        else ⟨st.transcript ++ ["Tutor: " ++ pyStrip text], st.turn_count + 1⟩) := by
  unfold register_agent_turn
  simp only [CLUSTER_SIZE]
  by_cases h0 : pyStrip text = ""
  · simp [h0]
  · by_cases h1 : (st.turn_count + 1) % 4 = 0
    · by_cases h2 : lastN (4 * 2) (st.transcript ++ ["Tutor: " ++ pyStrip text]) = []
      · have hparse : parse_transcript_from_redis (lastN (4 * 2)
            (st.transcript ++ ["Tutor: " ++ pyStrip text])) = [] := by
          rw [h2]; rfl
        simp [h0, h1, h2, hparse]
        rfl
      · by_cases h3 : (parse_transcript_from_redis (lastN (4 * 2)
            (st.transcript ++ ["Tutor: " ++ pyStrip text]))).length < 4
        · simp [h0, h1, h2, h3, Nat.not_le.mpr h3]
        · simp [h0, h1, h2, h3, Nat.le_of_not_lt h3]
    · simp [h0, h1]

/-- Helper: the deactivation pass of `import_article` leaves no active row. -/
theorem deactivate_active_filter (db : List WeeklyArticle) :
    (deactivate_active db).filter (fun a => a.is_active) = [] := by
  induction db with
  | nil => rfl
  | cons a rest ih =>
    by_cases h : a.is_active = true
    · simpa [deactivate_active, h, List.filter_cons] using ih
    · simpa [deactivate_active, h, List.filter_cons] using ih

/-- C5: after every completed `import_article` the active rows are exactly
the newly inserted one; every previously active row occurs deactivated in the
new table; and across any non-empty sequence of successive imports exactly
one row is active at the end. -/
theorem import_article_single_active (db : List WeeklyArticle) (newId now : Nat) :
    (import_article db newId now).filter (fun a => a.is_active)
        = [⟨newId, true, now⟩] ∧
    (∀ a ∈ db, a.is_active = true →
      ({ a with is_active := false } : WeeklyArticle) ∈ import_article db newId now) ∧
    (∀ imports : List (Nat × Nat), imports ≠ [] →
      ((imports.foldl (fun d p => import_article d p.1 p.2) db).filter
        (fun a => a.is_active)).length = 1) := by
  have hone : ∀ (d : List WeeklyArticle) (i n : Nat),
      (import_article d i n).filter (fun a => a.is_active) = [⟨i, true, n⟩] := by
    intro d i n
    simp [import_article, List.filter_append, deactivate_active_filter, List.filter_cons]
  refine ⟨hone db newId now, ?_, ?_⟩
  · intro a ha hact
    have : ({ a with is_active := false } : WeeklyArticle) ∈ deactivate_active db := by
      have := List.mem_map_of_mem
        (fun a : WeeklyArticle => if a.is_active then { a with is_active := false } else a) ha
      simpa [deactivate_active, hact] using this
    exact List.mem_append_left _ this
  · intro imports
    induction imports generalizing db with
    | nil => intro h; exact absurd rfl h
    | cons p rest ih =>
      intro _
      cases rest with
      | nil => simp [List.foldl, hone db p.1 p.2]
      | cons q rest2 =>
        have := ih (import_article db p.1 p.2) (by simp)
        simpa [List.foldl] using this

/-- Witness for C5 at a concrete table: one previously active row, a fresh
import, and a two-step import sequence. -/
theorem import_article_single_active_witness :
    (import_article [⟨1, true, 0⟩] 2 5).filter (fun a => a.is_active)
        = [⟨2, true, 5⟩] ∧
    ((([(3, 6), (4, 7)] : List (Nat × Nat)).foldl
        (fun d p => import_article d p.1 p.2) [⟨1, true, 0⟩]).filter
      (fun a => a.is_active)).length = 1 := by
  have h := import_article_single_active [⟨1, true, 0⟩] 2 5
  exact ⟨h.1, h.2.2 [(3, 6), (4, 7)] (by decide)⟩

/-- C3: when `create_session` is given a conversation id that exists and
belongs to a different user, the code drops the loaded row but then builds
the replacement `Conversations` row with the *same* primary key
(`id=conversation_uuid`), so the commit violates the `conversations.id`
primary-key constraint and the call raises instead of creating a new row —
user 10 owns conversation 1, and user 20 requesting conversation 1 gets a
primary-key violation. -/
theorem create_session_cross_user_pk_violation :
    create_session c3db 20 "Spanish Tutor (Intermediate)" "es"
        (some "intermediate") (some true) none (some 1) 99 50
      = .error CreateSessionError.pkViolation := by
  rfl

/-- Helper: the wrapped container opens with the `RIFF` marker. -/
theorem wav_marker_riff (pcm : List Nat) :
    (pcm_to_wav_default pcm).take 4 = asciiBytes "RIFF" := rfl

/-- Helper: raw little-endian bytes of the RIFF chunk-size field. -/
theorem wav_riff_size_field (pcm : List Nat) :
    ((pcm_to_wav_default pcm).drop 4).take 4 =
      [(36 + pcm.length) % 256, (36 + pcm.length) / 256 % 256,
        (36 + pcm.length) / 256 / 256 % 256,
        (36 + pcm.length) / 256 / 256 / 256 % 256] := rfl

/-- Helper: the audio-format field holds 1 (PCM). -/
theorem wav_audio_format_field (pcm : List Nat) :
    ((pcm_to_wav_default pcm).drop 20).take 2 = [1, 0] := rfl

/-- Helper: the channel-count field holds 1. -/
theorem wav_channels_field (pcm : List Nat) :
    ((pcm_to_wav_default pcm).drop 22).take 2 = [1, 0] := rfl

/-- Helper: the sample-rate field holds the bytes of 16000. -/
theorem wav_sample_rate_field (pcm : List Nat) :
    ((pcm_to_wav_default pcm).drop 24).take 4 = [128, 62, 0, 0] := rfl

/-- Helper: the byte-rate field holds the bytes of 16000 * 1 * 2 = 32000. -/
theorem wav_byte_rate_field (pcm : List Nat) :
    ((pcm_to_wav_default pcm).drop 28).take 4 = [0, 125, 0, 0] := rfl

/-- Helper: raw little-endian bytes of the data chunk-size field. -/
theorem wav_data_size_field (pcm : List Nat) :
    ((pcm_to_wav_default pcm).drop 40).take 4 =
      [pcm.length % 256, pcm.length / 256 % 256, pcm.length / 256 / 256 % 256,
        pcm.length / 256 / 256 / 256 % 256] := rfl

/-- Helper: the header is 44 bytes, followed by the unmodified PCM payload. -/
theorem wav_payload (pcm : List Nat) :
    (pcm_to_wav_default pcm).drop 44 = pcm := rfl

/-- Helper: total container length. -/
theorem wav_length (pcm : List Nat) :
    (pcm_to_wav_default pcm).length = 44 + pcm.length := by
  have l4 : ∀ n : Nat, (toBytesLE 4 n).length = 4 := fun n => rfl
  have l2 : ∀ n : Nat, (toBytesLE 2 n).length = 2 := fun n => rfl
  have a4 : (asciiBytes "RIFF").length = 4 := by decide
  have a4b : (asciiBytes "WAVE").length = 4 := by decide
  have a4c : (asciiBytes "fmt ").length = 4 := by decide
  have a4d : (asciiBytes "data").length = 4 := by decide
  simp [pcm_to_wav_default, pcm_to_wav, l4, l2, a4, a4b, a4c, a4d]
  omega

/-- C7: for a PCM16 mono 16 kHz payload of byte length `L` (any length a
4-byte size field can hold), the wrapped container starts with `RIFF`,
declares a RIFF chunk size of `36 + L`, audio format 1 (PCM), channel count
1, sample rate 16000, byte rate 32000, a `data` chunk size of `L`, and is the
44-byte header followed by the unmodified PCM bytes. -/
theorem pcm_to_wav_spec (pcm : List Nat) (h : pcm.length + 36 < 2 ^ 32) :
    (pcm_to_wav_default pcm).length = 44 + pcm.length ∧
    (pcm_to_wav_default pcm).take 4 = asciiBytes "RIFF" ∧
    leDecode (((pcm_to_wav_default pcm).drop 4).take 4) = 36 + pcm.length ∧
    leDecode (((pcm_to_wav_default pcm).drop 20).take 2) = 1 ∧
    leDecode (((pcm_to_wav_default pcm).drop 22).take 2) = 1 ∧
    leDecode (((pcm_to_wav_default pcm).drop 24).take 4) = 16000 ∧
    leDecode (((pcm_to_wav_default pcm).drop 28).take 4) = 32000 ∧
    leDecode (((pcm_to_wav_default pcm).drop 40).take 4) = pcm.length ∧
    (pcm_to_wav_default pcm).drop 44 = pcm := by
  have hL : pcm.length < 2 ^ 32 := by omega
  refine ⟨wav_length pcm, wav_marker_riff pcm, ?_, ?_, ?_, ?_, ?_, ?_, wav_payload pcm⟩
  · rw [wav_riff_size_field pcm]
    simp only [leDecode]
    omega
  · rw [wav_audio_format_field pcm]
    rfl
  · rw [wav_channels_field pcm]
    rfl
  · rw [wav_sample_rate_field pcm]
    rfl
  · rw [wav_byte_rate_field pcm]
    rfl
  · rw [wav_data_size_field pcm]
    simp only [leDecode]
    omega

/-- Witness for C7 at the concrete payload `[1, 2, 3]`. -/
theorem pcm_to_wav_spec_witness :
    ([1, 2, 3] : List Nat).length + 36 < 2 ^ 32 ∧
    leDecode (((pcm_to_wav_default [1, 2, 3]).drop 4).take 4) = 39 ∧
    (pcm_to_wav_default [1, 2, 3]).drop 44 = [1, 2, 3] := by
  have h := pcm_to_wav_spec [1, 2, 3] (by norm_num)
  refine ⟨by norm_num, ?_, h.2.2.2.2.2.2.2.2⟩
  have := h.2.2.1
  simpa using this

/-- Helper: `find?` over an appended list when the first part has no match. -/
theorem find?_append_of_none {α : Type} (p : α → Bool) (l1 l2 : List α)
    (h : l1.find? p = none) : (l1 ++ l2).find? p = l2.find? p := by
  rw [List.find?_append, h, Option.none_or]

/-- C8: once `get_or_create_analysis` has completed for an (article, user)
pair, calling it again returns exactly the content the first call returned
and persisted, invokes the generator zero times, and leaves the analysis
table unchanged (there is no invalidation path). -/
theorem get_or_create_analysis_cached (st : ArticleDbState) (a u : Nat)
    (g1 g2 : GenAnalysis) (f1 n1 f2 n2 : Nat) (r1 : AnalysisResult)
    (st1 : ArticleDbState) (k1 : Nat)
    (h : get_or_create_analysis st a u g1 f1 n1 = .ok (r1, st1, k1)) :
    get_or_create_analysis st1 a u g2 f2 n2 = .ok (r1, st1, 0) := by
  unfold get_or_create_analysis at h ⊢
  cases hfind : st.analyses.find? fun r =>
      decide (r.article_id = a ∧ r.user_id = u) with
  | some e =>
    rw [hfind] at h
    have he := Except.ok.inj h
    have hr1 : r1 = ⟨e.id, e.article_id, e.user_id, e.vocab_items,
        e.grammar_patterns, e.cultural_notes, e.personalized_tips, e.created_at⟩ := by
      have := congrArg Prod.fst he
      simpa using this.symm
    have hst1 : st1 = st := by
      have := congrArg (fun x => x.2.1) he
      simpa using this.symm
    rw [hst1, hfind, hr1]
  | none =>
    rw [hfind] at h
    cases hart : st.articles.find? fun x => x.1 = a with
    | none => rw [hart] at h; exact absurd h (by simp)
    | some art =>
      rw [hart] at h
      simp only at h
      have he := Except.ok.inj h
      have hr1 : r1 = ⟨f1, a, u, g1.vocab_items, g1.grammar_patterns,
          g1.cultural_notes, g1.personalized_tips, n1⟩ := by
        have := congrArg Prod.fst he
        simpa using this.symm
      have hst1 : st1 = { st with analyses := st.analyses ++
          [⟨f1, a, u, g1.vocab_items, g1.grammar_patterns, g1.cultural_notes,
            g1.personalized_tips, n1⟩] } := by
        have := congrArg (fun x => x.2.1) he
        simpa using this.symm
      have hfind2 : st1.analyses.find? (fun r =>
          decide (r.article_id = a ∧ r.user_id = u)) =
          some ⟨f1, a, u, g1.vocab_items, g1.grammar_patterns, g1.cultural_notes,
            g1.personalized_tips, n1⟩ := by
        rw [hst1]
        simp only
        rw [find?_append_of_none _ _ _ hfind]
        simp [List.find?]
      rw [hfind2, hr1]

/-- Witness for C8: the concrete second call after a first call on an empty
analysis table returns the first call's content with zero generator
invocations. -/
theorem get_or_create_analysis_cached_witness :
    get_or_create_analysis c8db1 1 2 ⟨["otro"], [], [], []⟩ 8 10
      = .ok (c8result, c8db1, 0) := by
  have h1 : get_or_create_analysis c8db 1 2 c8gen 7 9 = .ok (c8result, c8db1, 1) := by
    rfl
  exact get_or_create_analysis_cached c8db 1 2 c8gen ⟨["otro"], [], [], []⟩ 7 9 8 10
    c8result c8db1 1 h1

/-- C6 counterexample: on total failure `translate_text` returns the
*trimmed* input (`cleaned = text.strip()`), not the original text unchanged —
with no API key, no local model, and input `" hola "`, the call returns
`"hola"`. -/
theorem translate_text_counterexample :
    (translate_text ⟨false, fun _ => .error (), none⟩ " hola " "en" "es" false).result
        = .ok "hola" ∧
    (" hola " : String) ≠ "hola" := by
  exact ⟨rfl, by decide⟩

/-- C6 (amended): with an API key, a first output identical (case- and
whitespace-insensitively) to the input triggers exactly one retry with the
stricter instruction; a still-identical retry is treated as failure, ending
the call exactly as one with no API key (the fallback chain); the local OPUS
model is only invoked for the es→en pair; and on total failure the call
raises when `fail_on_untranslated` is set and otherwise returns the trimmed
input text. -/
theorem translate_text_spec (env : TranslateEnv) (text tgt src : String)
    (failFlag : Bool) (hne : pyStrip text ≠ "") :
    (∀ t1, env.api_key = true → env.request false = .ok t1 →
      looks_untranslated (pyStrip text) t1 = true →
      (translate_text env text tgt src failFlag).requests = [false, true]) ∧
    (∀ t1 t2, env.api_key = true → env.request false = .ok t1 →
      looks_untranslated (pyStrip text) t1 = true →
      env.request true = .ok t2 →
      looks_untranslated (pyStrip text) t2 = true →
      (translate_text env text tgt src failFlag).result =
        (translate_text ⟨false, env.request, env.opus⟩ text tgt src failFlag).result ∧
      (translate_text env text tgt src failFlag).opus_called =
        (translate_text ⟨false, env.request, env.opus⟩ text tgt src failFlag).opus_called) ∧
    ((translate_text env text tgt src failFlag).opus_called = true →
      pyLower (if src = "" then "es" else src) = "es" ∧
      pyLower (if tgt = "" then "en" else tgt) = "en") ∧
    (env.api_key = false → env.opus = none →
      (translate_text env text tgt src failFlag).result =
        (if failFlag then .error () else .ok (pyStrip text))) := by
  refine ⟨?_, ?_, ?_, ?_⟩
  · intro t1 hkey hreq hlook
    unfold translate_text
    simp only [hne, if_neg hne, hkey, hreq, hlook, if_true]
    cases hreq2 : env.request true with
    | error e => simp [hreq2]
    | ok t2 =>
      by_cases hlook2 : looks_untranslated (pyStrip text) t2 = true
      · simp [hreq2, hlook2]
      · simp [hreq2, hlook2]
  · intro t1 t2 hkey hreq hlook hreq2 hlook2
    unfold translate_text
    simp only [hne, if_neg hne, hkey, hreq, hlook, hreq2, hlook2, if_true]
    exact ⟨rfl, rfl⟩
  · intro hopus
    constructor
    · revert hopus
      unfold translate_text
      simp only [if_neg hne]
      cases hkey : env.api_key with
      | false =>
        simp only [Bool.false_eq_true, if_false]
        intro hopus
        exact (of_decide_eq_true hopus).1
      | true =>
        cases hreq : env.request false with
        | error e =>
          simp only
          intro hopus
          exact (of_decide_eq_true hopus).1
        | ok t1 =>
          by_cases hlook : looks_untranslated (pyStrip text) t1 = true
          · simp only [hlook, if_true]
            cases hreq2 : env.request true with
            | error e =>
              simp only
              intro hopus
              exact (of_decide_eq_true hopus).1
            | ok t2 =>
              by_cases hlook2 : looks_untranslated (pyStrip text) t2 = true
              · simp only [hlook2, if_true]
                intro hopus
                exact (of_decide_eq_true hopus).1
              · simp only [hlook2, if_false]
                intro hopus
                exact absurd hopus (by simp)
          · simp only [hlook, if_false]
            intro hopus
            exact absurd hopus (by simp)
    · revert hopus
      unfold translate_text
      simp only [if_neg hne]
      cases hkey : env.api_key with
      | false =>
        simp only [Bool.false_eq_true, if_false]
        intro hopus
        exact (of_decide_eq_true hopus).2
      | true =>
        cases hreq : env.request false with
        | error e =>
          simp only
          intro hopus
          exact (of_decide_eq_true hopus).2
        | ok t1 =>
          by_cases hlook : looks_untranslated (pyStrip text) t1 = true
          · simp only [hlook, if_true]
            cases hreq2 : env.request true with
            | error e =>
              simp only
              intro hopus
              exact (of_decide_eq_true hopus).2
            | ok t2 =>
              by_cases hlook2 : looks_untranslated (pyStrip text) t2 = true
              · simp only [hlook2, if_true]
                intro hopus
                exact (of_decide_eq_true hopus).2
              · simp only [hlook2, if_false]
                intro hopus
                exact absurd hopus (by simp)
          · simp only [hlook, if_false]
            intro hopus
            exact absurd hopus (by simp)
  · intro hkey hopus
    unfold translate_text
    simp only [if_neg hne, hkey, Bool.false_eq_true, if_false]
    unfold fallback_translate_local
    rw [hopus]
    cases hpair : decide (pyLower (if src = "" then "es" else src) ≠ "es" ∨
        pyLower (if tgt = "" then "en" else tgt) ≠ "en") <;>
      simp_all

/-- Witness for C6: a stub that echoes `"hola"` on the relaxed attempt and
translates on the strict retry makes exactly the two requests. -/
theorem translate_text_spec_witness :
    pyStrip "hola" ≠ "" ∧
    (translate_text c6env "hola" "en" "es" false).requests = [false, true] := by
  have h := translate_text_spec c6env "hola" "en" "es" false (by decide)
  exact ⟨by decide, h.1 "hola" rfl rfl (by decide)⟩

/-- C9 counterexample: the source's `DIFFICULTY_CONTEXTS` contains exactly
one `"intermediate"` (and one `"advanced"`) entry — there are no two
successive revisions under the same keys — and the intermediate band in
effect is not the claimed "at most two sentences totaling at most 20 words"
revision: no intermediate instruction mentions "20", and its first
instruction allows two to three sentences under 45 total words. -/
theorem intermediate_revision_counterexample :
    (DIFFICULTY_CONTEXTS.filter fun p => p.1 == "intermediate").length = 1 ∧
    (DIFFICULTY_CONTEXTS.filter fun p => p.1 == "advanced").length = 1 ∧
    ((difficultyContextFor "intermediate").instructions.all
      fun s => !strContains "20" s) = true ∧
    strContains "45 total words"
      ((difficultyContextFor "intermediate").instructions.headD "") = true := by
  refine ⟨by decide, by decide, by decide, by decide⟩

/-- C9 (amended): the intermediate band in effect at runtime — as selected by
`build_agent_context` and reported by the difficulty-info accessor — is the
single "El Amigo Miguel" revision present in the source, whose first
instruction caps replies at two to three sentences under 45 total words; the
composed adaptive prompt for the intermediate difficulty contains that
instruction text. -/
theorem intermediate_band_in_effect :
    difficultyContextFor "intermediate" = intermediateContext ∧
    List.lookup "intermediate" get_difficulty_info =
      some (intermediateContext.instructions, intermediateContext.correction_style) ∧
    (difficultyContextFor "intermediate").instructions.headD "" =
      "Speak at a moderate pace with two to three sentences that stay under 45 total words." ∧
    strContains "45 total words" (build_agent_context "intermediate" none true) = true := by
  refine ⟨by decide, by decide, by decide, by decide⟩

/-- C10: for any difficulty string outside the three configured bands,
adaptive `build_agent_context` composes the prompt from the intermediate
band's instructions and correction style, and `get_agent` resolves the
intermediate band's agent identifier; both are total functions, so neither
fails. -/
theorem unknown_difficulty_uses_intermediate (d : String)
    (custom api_key : Option String) (bid iid aid : String)
    (h1 : d ≠ "beginner") (h2 : d ≠ "intermediate") (h3 : d ≠ "advanced") :
    difficultyContextFor d = intermediateContext ∧
    build_agent_context d custom true =
      String.intercalate "\n" (context_parts_core intermediateContext d custom) ∧
    (get_agent bid iid aid d custom api_key true).agent_id = iid := by
  have e1 : (d == "beginner") = false := beq_eq_false_iff_ne.mpr h1
  have e2 : (d == "intermediate") = false := beq_eq_false_iff_ne.mpr h2
  have e3 : (d == "advanced") = false := beq_eq_false_iff_ne.mpr h3
  have hctx : difficultyContextFor d = intermediateContext := by
    simp [difficultyContextFor, DIFFICULTY_CONTEXTS, List.lookup, e1, e2, e3]
  refine ⟨hctx, ?_, ?_⟩
  · rw [build_agent_context]
    simp [hctx]
  · simp [get_agent, SPANISH_AGENTS, List.lookup, e1, e2, e3]

/-- Witness for C10 at the concrete unknown difficulty `"expert"`. -/
theorem unknown_difficulty_uses_intermediate_witness :
    difficultyContextFor "expert" = intermediateContext ∧
    (get_agent "id-beg" "id-int" "id-adv" "expert" none none true).agent_id
      = "id-int" := by
  have h := unknown_difficulty_uses_intermediate "expert" none none
    "id-beg" "id-int" "id-adv" (by decide) (by decide) (by decide)
  exact ⟨h.1, h.2.2⟩

end Contigo
